import Mathlib

/-!
Shallow embedding of the resilient-fetch core of the downloader module
(the Downloader class: the exception-classifying retry wrapper, the
login state machine, the media dispatch table and get_post_content).

External collaborators (the Instagram client, the filesystem) are modelled
as explicit state and environment records; machine behaviour of the
repository code is translated statement by statement from the source.
-/

namespace Downloader

/-- Exceptions that can flow through the Downloader code: the classified
upstream failures caught by the retry wrapper, the content-resolution
failures, the module's own error types, and Python runtime errors. -/
inductive Exc where
  | loginRequired
  | challengeRequired
  | pleaseWaitFewMinutes
  | readTimeoutError
  | requestsConnectionError
  | clientRequestTimeout
  | mediaNotFound
  | mediaUnavailable
  | failedDownloadPost
  | failedAuthInstagram
  | keyError (key : String)
  | otherError (msg : String)
deriving DecidableEq, Repr

/-- A recovery step performed by an except-branch of the wrapper:
a blocking wait of a given number of seconds, or a call to
self.login with the given method argument. -/
inductive RecoveryStep where
  | sleepSeconds (seconds : Nat)
  | loginCall (mode : String)
deriving DecidableEq, Repr

/-- The except-clauses of exceptions_handler, in source order: which
exceptions are caught and which recovery steps the matching branch
performs. none means the exception is not caught (it propagates). -/
def recovery_steps : Exc → Option (List RecoveryStep)
  | .loginRequired => some [.loginCall "relogin"]
  | .challengeRequired => some [.sleepSeconds 3600, .loginCall "session"]
  | .pleaseWaitFewMinutes => some [.sleepSeconds 3600, .loginCall "relogin"]
  | .readTimeoutError => some [.sleepSeconds 60]
  | .requestsConnectionError => some [.sleepSeconds 60]
  | .clientRequestTimeout => some [.sleepSeconds 60]
  | _ => none

/-- An exception is classified when some except-clause of the wrapper
catches it. -/
def classified (e : Exc) : Bool :=
  (recovery_steps e).isSome

/-- Observable events of one run of the wrapper: an invocation of the
wrapped method, or a recovery step performed between the two invocations. -/
inductive WEvent where
  | invoke
  | step (s : RecoveryStep)
deriving DecidableEq, Repr

instance : BEq WEvent := instBEqOfDecidableEq

/-- Number of invocations of the wrapped method recorded in a trace. -/
def invocationCount (tr : List WEvent) : Nat :=
  tr.count WEvent.invoke

/-- The wrapper produced by the exceptions_handler decorator.
The wrapped method is modelled as a function from the attempt index to
the outcome of that attempt (the same original arguments are passed both
times; the outcome may differ because the remote service and the client
state may change between attempts). The first invocation happens inside
the try; if it raises a classified exception the matching recovery steps
run and the method is invoked a second time outside the try, so a second
failure propagates unwrapped; an unclassified exception propagates at
once with no second invocation. -/
def exceptions_handler {α : Type} (m : Nat → Except Exc α) :
    List WEvent × Except Exc α :=
  match m 0 with
  | .ok a => ([.invoke], .ok a)
  | .error e =>
    match recovery_steps e with
    | some steps => ([WEvent.invoke] ++ steps.map WEvent.step ++ [WEvent.invoke], m 1)
    | none => ([.invoke], .error e)

/-- The client settings blob: the durable device identity part (uuids)
and the rest of the session state (authorization data and the like),
each kept abstract. set_settings with an empty dict resets both to empty. -/
structure Session where
  uuids : String
  auth : String
deriving DecidableEq, Repr

/-- State owned by one Downloader instance: the in-memory client settings
and the session file on disk (none when the file does not exist). -/
structure IgState where
  settings : Session
  sessionFile : Option Session
deriving DecidableEq, Repr

/-- The keyword arguments passed to client.login: username, password and,
when two-factor authentication is enabled, the generated TOTP code. -/
structure LoginArgs where
  username : String
  password : String
  verification_code : Option String
deriving DecidableEq, Repr

/-- The configuration fields of the Downloader that the login method
reads: credentials and the two-factor settings. -/
structure Configuration where
  username : String
  password : String
  twofa_enabled : Bool
  twofa_seed : String
deriving DecidableEq, Repr

/-- Behaviour of the external Instagram client during login:
TOTP code generation from a seed, the credential login call (given the
login arguments and the settings in force at that moment it either raises
or returns the fresh authorization blob that it installs), and the
get_timeline_feed verification read. -/
structure LoginEnv where
  totp_generate_code : String → String
  clientLogin : LoginArgs → Session → Except Exc String
  get_timeline_feed : Except Exc Unit

/-- The 2FA branch at the top of login: build the login_args dict,
generating a fresh TOTP code when two-factor authentication is enabled. -/
def make_login_args (cfg : Configuration) (env : LoginEnv) : LoginArgs :=
  if cfg.twofa_enabled then
    { username := cfg.username
      password := cfg.password
      verification_code := some (env.totp_generate_code cfg.twofa_seed) }
  else
    { username := cfg.username
      password := cfg.password
      verification_code := none }

/-- The relogin and new-session-file branches of login (taken when the
session branch condition does not hold). relogin: read the current
settings, reset them to empty, restore only the uuids, credential login,
dump the settings to the session file. Otherwise: credential login on the
current settings and dump to the session file. -/
def login_branch_rest (env : LoginEnv) (st : IgState) (method : String)
    (args : LoginArgs) : Except Exc IgState :=
  if method = "relogin" then
    let old_session := st.settings
    let reset : Session := { uuids := old_session.uuids, auth := "" }
    match env.clientLogin args reset with
    | .error e => .error e
    | .ok a =>
      let new_settings : Session := { reset with auth := a }
      .ok { settings := new_settings, sessionFile := some new_settings }
  else
    match env.clientLogin args st.settings with
    | .error e => .error e
    | .ok a =>
      let new_settings : Session := { st.settings with auth := a }
      .ok { settings := new_settings, sessionFile := some new_settings }

/-- The three-way branch of login on (method, session-file existence):
with method session and an existing session file, load the settings from
the file and perform credential login without rewriting the file;
otherwise fall through to the relogin / new-file branches. -/
def login_branch (env : LoginEnv) (st : IgState) (method : String)
    (args : LoginArgs) : Except Exc IgState :=
  match st.sessionFile with
  | some file_sess =>
    if method = "session" then
      match env.clientLogin args file_sess with
      | .error e => .error e
      | .ok a => .ok { st with settings := { file_sess with auth := a } }
    else
      login_branch_rest env st method args
  | none => login_branch_rest env st method args

/-- The body of the login method (before the exceptions_handler wrapper):
build login_args, run the branch selected by the method argument, verify
authentication with one get_timeline_feed read, and return the string
logged_in together with the resulting state. -/
def login_body (cfg : Configuration) (env : LoginEnv) (st : IgState)
    (method : String) : Except Exc (IgState × String) :=
  match login_branch env st method (make_login_args cfg env) with
  | .error e => .error e
  | .ok st2 =>
    match env.get_timeline_feed with
    | .error e => .error e
    | .ok _ => .ok (st2, "logged_in")

/-- The wrapped login method: exceptions_handler applied to login's body.
The two attempts may observe different external behaviour and state,
modelled by separate environment and state arguments per attempt. -/
def login_wrapped (cfg : Configuration) (env1 env2 : LoginEnv)
    (st1 st2 : IgState) (method : String) :
    List WEvent × Except Exc (IgState × String) :=
  exceptions_handler (fun n =>
    if n = 0 then login_body cfg env1 st1 method
    else login_body cfg env2 st2 method)

/-- The auth-status check in the constructor: raise FailedAuthInstagram
unless login returned the string logged_in; an exception from login
itself propagates. -/
def init_auth_check (auth_status : Except Exc String) : Except Exc Unit :=
  match auth_status with
  | .error e => .error e
  | .ok s => if s = "logged_in" then .ok () else .error .failedAuthInstagram

/-- The five download strategies of the dispatch table. -/
inductive DownloadMethod where
  | photo_download
  | video_download
  | clip_download
  | igtv_download
  | album_download
deriving DecidableEq, Repr

/-- The download_methods dispatch table built in the constructor, keyed
by the pair of the numeric media type and the subkind string (the
subkind slot holds none when the product_type value is Python None). -/
def download_methods : Nat × Option String → Option DownloadMethod
  | (1, some "any") => some .photo_download
  | (2, some "feed") => some .video_download
  | (2, some "clips") => some .clip_download
  | (2, some "igtv") => some .igtv_download
  | (8, some "any") => some .album_download
  | _ => none

/-- The media_info dictionary fields read by get_post_content.
product_type models the dict entry: none when the key is absent from the
mapping, some none when the key is present with value None, and
some (some s) when it is present with the string s. -/
structure MediaInfo where
  media_type : Nat
  product_type : Option (Option String)
  username : String
deriving DecidableEq, Repr

/-- Python dict.get on the product_type entry: None both when the key is
absent and when it is present with value None. -/
def dict_get_product_type (mi : MediaInfo) : Option String :=
  Option.join mi.product_type

/-- The dispatch key computed by get_post_content: the subkind is
normalized to the string any when the media type is 1 or 8, and is the
product_type value from dict.get otherwise. -/
def dispatch_key (mi : MediaInfo) : Nat × Option String :=
  (mi.media_type,
    if mi.media_type = 1 ∨ mi.media_type = 8 then some "any"
    else dict_get_product_type mi)

/-- The Python conditional expression x if x else d for an optional
string x: the default d when x is None or the empty string. -/
def py_str_or (x : Option String) (d : String) : String :=
  match x with
  | none => d
  | some v => if v = "" then d else v

/-- The type field of the response: media_info product_type if truthy,
else the label photo. The caller has already established that the key is
present, so the argument is the present value (possibly None). -/
def type_field (pt : Option String) : String :=
  match pt with
  | none => "photo"
  | some s => if s = "" then "photo" else s

/-- The response dictionary returned by get_post_content. -/
structure FetchOutcome where
  post : String
  owner : String
  type : String
  status : String
deriving DecidableEq, Repr

/-- Observable events of one run of get_post_content against its
environment, in order: resolving the shortcode to a primary key, the
metadata fetch, directory creation, a call to a download strategy, and
the directory listing of the verification step. -/
inductive FetchEvent where
  | resolve_pk
  | fetch_info
  | makedirs (path : String)
  | download (m : DownloadMethod)
  | listdir (path : String)
deriving DecidableEq, Repr

/-- Behaviour of the external world during one get_post_content call:
media_pk_from_code, media_info, the effect of invoking a download
strategy, and the directory listing observed afterwards. -/
structure FetchEnv where
  media_pk_from_code : String → Except Exc Nat
  media_info : Nat → Except Exc MediaInfo
  download : DownloadMethod → Nat → String → Except Exc Unit
  listdir : String → List String

/-- The tail of the try block: evaluate os.listdir on the owner
directory, then build the response dict; reading the product_type key
with a direct subscript raises KeyError when the key is absent. -/
def build_response (env : FetchEnv) (mi : MediaInfo) (shortcode : String)
    (status : Option String) (pre : List FetchEvent) :
    List FetchEvent × Except Exc FetchOutcome :=
  let path := "data/" ++ mi.username
  let listing := env.listdir path
  let tr := pre ++ [FetchEvent.listdir path]
  let final_status :=
    if listing ≠ [] then py_str_or status "completed"
    else py_str_or status "failed"
  match mi.product_type with
  | none => (tr, .error (.keyError "product_type"))
  | some pt =>
    (tr, .ok { post := shortcode, owner := mi.username,
               type := type_field pt, status := final_status })

/-- The try block of get_post_content: resolve the shortcode, fetch the
metadata, compute the dispatch key, create the owner directory, run the
download strategy when the table has one (status completed) or record
status not_supported, then verify the directory listing and build the
response. -/
def get_post_try (env : FetchEnv) (shortcode : String) :
    List FetchEvent × Except Exc FetchOutcome :=
  match env.media_pk_from_code shortcode with
  | .error e => ([.resolve_pk], .error e)
  | .ok media_pk =>
    match env.media_info media_pk with
    | .error e => ([.resolve_pk, .fetch_info], .error e)
    | .ok mi =>
      let key := dispatch_key mi
      let download_method := download_methods key
      let path := "data/" ++ mi.username
      let pre := [FetchEvent.resolve_pk, FetchEvent.fetch_info,
                  FetchEvent.makedirs path]
      match download_method with
      | some dm =>
        match env.download dm media_pk path with
        | .error e => (pre ++ [.download dm], .error e)
        | .ok _ =>
          build_response env mi shortcode (some "completed")
            (pre ++ [.download dm])
      | none => build_response env mi shortcode (some "not_supported") pre

/-- The body of get_post_content: the error_count guard raising
FailedDownloadPost, then the try block, with MediaUnavailable and
MediaNotFound short-circuited to the source_not_found response and every
other exception propagating. -/
def get_post_content (env : FetchEnv) (shortcode : String)
    (error_count : Int) : List FetchEvent × Except Exc FetchOutcome :=
  if error_count > 3 then ([], .error .failedDownloadPost)
  else
    match get_post_try env shortcode with
    | (tr, .ok r) => (tr, .ok r)
    | (tr, .error e) =>
      if e = .mediaUnavailable ∨ e = .mediaNotFound then
        (tr, .ok { post := shortcode, owner := "undefined",
                   type := "undefined", status := "source_not_found" })
      else (tr, .error e)

/-- A fetch environment with constant answers, used to evaluate the
embedding at concrete inputs. -/
def envOf (pk : Except Exc Nat) (mi : Except Exc MediaInfo)
    (dl : Except Exc Unit) (ls : List String) : FetchEnv :=
  { media_pk_from_code := fun _ => pk
    media_info := fun _ => mi
    download := fun _ _ _ => dl
    listdir := fun _ => ls }

lemma count_invoke_map_step (steps : List RecoveryStep) :
    List.count WEvent.invoke (steps.map WEvent.step) = 0 := by
  simp [List.count_eq_zero, List.mem_map]

lemma count_invoke_retry (steps : List RecoveryStep) :
    invocationCount ([WEvent.invoke] ++ steps.map WEvent.step
      ++ [WEvent.invoke]) = 2 := by
  unfold invocationCount
  simp [List.count_append, count_invoke_map_step]

lemma classified_retry {α : Type} (m : Nat → Except Exc α) (e : Exc)
    (h0 : m 0 = .error e) (hcl : classified e = true) :
    invocationCount (exceptions_handler m).1 = 2
    ∧ (exceptions_handler m).2 = m 1 := by
  rcases hrs : recovery_steps e with _ | steps
  · rw [classified, hrs] at hcl
    simp at hcl
  · constructor
    · simp only [exceptions_handler, h0, hrs]
      exact count_invoke_retry steps
    · simp [exceptions_handler, h0, hrs]

lemma exceptions_handler_ok {α : Type} (m : Nat → Except Exc α) (a : α)
    (h : (exceptions_handler m).2 = .ok a) :
    m 0 = .ok a ∨ m 1 = .ok a := by
  unfold exceptions_handler at h
  rcases h0 : m 0 with e | b
  · rw [h0] at h
    dsimp only at h
    rcases hrs : recovery_steps e with _ | steps
    · rw [hrs] at h
      cases h
    · rw [hrs] at h
      exact Or.inr h
  · rw [h0] at h
    dsimp only at h
    injection h with h2
    exact Or.inl (congrArg Except.ok h2)

lemma get_post_content_eq (env : FetchEnv) (sc : String) (ec : Int)
    (hec : ¬ ec > 3) :
    get_post_content env sc ec =
      match get_post_try env sc with
      | (tr, .ok r) => (tr, .ok r)
      | (tr, .error e) =>
        if e = .mediaUnavailable ∨ e = .mediaNotFound then
          (tr, .ok { post := sc, owner := "undefined",
                     type := "undefined", status := "source_not_found" })
        else (tr, .error e) := by
  unfold get_post_content
  rw [if_neg hec]

lemma get_post_try_eq (env : FetchEnv) (sc : String) (pk : Nat)
    (mi : MediaInfo)
    (h1 : env.media_pk_from_code sc = .ok pk)
    (h2 : env.media_info pk = .ok mi) :
    get_post_try env sc =
      match download_methods (dispatch_key mi) with
      | some dm =>
        match env.download dm pk ("data/" ++ mi.username) with
        | .error e =>
          ([FetchEvent.resolve_pk, FetchEvent.fetch_info,
            FetchEvent.makedirs ("data/" ++ mi.username),
            FetchEvent.download dm], .error e)
        | .ok _ =>
          build_response env mi sc (some "completed")
            [FetchEvent.resolve_pk, FetchEvent.fetch_info,
             FetchEvent.makedirs ("data/" ++ mi.username),
             FetchEvent.download dm]
      | none =>
        build_response env mi sc (some "not_supported")
          [FetchEvent.resolve_pk, FetchEvent.fetch_info,
           FetchEvent.makedirs ("data/" ++ mi.username)] := by
  simp only [get_post_try, h1, h2]
  rfl

lemma get_post_content_guard (env : FetchEnv) (shortcode : String)
    (error_count : Int) (h : error_count > 3) :
    get_post_content env shortcode error_count =
      ([], .error .failedDownloadPost) := by
  unfold get_post_content
  rw [if_pos h]

/-- Claim C5: calling get_post_content with error_count above 3 raises
FailedDownloadPost at once: the trace is empty, so no resolution,
metadata fetch or download is attempted. -/
theorem C5_error_budget_guard (env : FetchEnv) (shortcode : String)
    (error_count : Int) (h : error_count > 3) :
    get_post_content env shortcode error_count =
      ([], .error .failedDownloadPost) :=
  get_post_content_guard env shortcode error_count h

/-- Witness for C5 at error_count 4. -/
theorem C5_witness :
    (4 : Int) > 3 ∧
    get_post_content
        (envOf (.ok 10) (.ok { media_type := 1, product_type := some none,
                               username := "alice" }) (.ok ()) []) "ABC" 4 =
      ([], .error .failedDownloadPost) :=
  ⟨by norm_num, C5_error_budget_guard _ "ABC" 4 (by norm_num)⟩

/-- Claim C4: when resolution (media_pk_from_code or media_info) raises
MediaUnavailable or MediaNotFound, get_post_content returns the
source_not_found response with owner and type undefined, whatever the
download and filesystem behaviour. -/
theorem C4_source_not_found (env : FetchEnv) (sc : String) (ec : Int)
    (hec : ¬ ec > 3)
    (h : env.media_pk_from_code sc = .error .mediaUnavailable
       ∨ env.media_pk_from_code sc = .error .mediaNotFound
       ∨ ∃ pk, env.media_pk_from_code sc = .ok pk
           ∧ (env.media_info pk = .error .mediaUnavailable
              ∨ env.media_info pk = .error .mediaNotFound)) :
    (get_post_content env sc ec).2 =
      .ok { post := sc, owner := "undefined", type := "undefined",
            status := "source_not_found" } := by
  rw [get_post_content_eq env sc ec hec]
  rcases h with h | h | ⟨pk, hpk, h | h⟩
  · simp [get_post_try, h]
  · simp [get_post_try, h]
  · simp [get_post_try, hpk, h]
  · simp [get_post_try, hpk, h]

/-- Witness for C4: resolution fails with MediaNotFound. -/
theorem C4_witness :
    ¬ (0 : Int) > 3 ∧
    (get_post_content
        (envOf (.error .mediaNotFound)
               (.ok { media_type := 1, product_type := some none,
                      username := "alice" }) (.ok ()) ["f.jpg"]) "SC4" 0).2 =
      .ok { post := "SC4", owner := "undefined", type := "undefined",
            status := "source_not_found" } :=
  ⟨by norm_num,
   C4_source_not_found _ "SC4" 0 (by norm_num) (Or.inr (Or.inl rfl))⟩

/-- Claim C1 evaluated at a failing input: the shortcode resolves to a
single image (media type 1), the photo strategy is found and executed
(the download event is in the trace), the owner directory listing is
empty afterwards, and yet the returned status is completed, not failed:
the failed fallback is dead code because the status local is always a
non-empty string once a strategy has run. -/
theorem C1_empty_dir_returns_completed :
    get_post_content
        (envOf (.ok 10) (.ok { media_type := 1, product_type := some none,
                               username := "alice" }) (.ok ()) []) "SC1" 0 =
      ([FetchEvent.resolve_pk, FetchEvent.fetch_info,
        FetchEvent.makedirs "data/alice",
        FetchEvent.download .photo_download,
        FetchEvent.listdir "data/alice"],
       .ok { post := "SC1", owner := "alice", type := "photo",
             status := "completed" }) ∧
    (envOf (.ok 10) (.ok { media_type := 1, product_type := some none,
                           username := "alice" }) (.ok ()) []).listdir
        "data/alice" = [] := by
  constructor
  · rfl
  · rfl

lemma build_response_status (env : FetchEnv) (mi : MediaInfo) (sc s : String)
    (pre : List FetchEvent) (hs : s ≠ "") :
    build_response env mi sc (some s) pre =
      (pre ++ [FetchEvent.listdir ("data/" ++ mi.username)],
       match mi.product_type with
       | none => .error (.keyError "product_type")
       | some pt => .ok { post := sc, owner := mi.username,
                          type := type_field pt, status := s }) := by
  unfold build_response
  cases mi.product_type <;> simp [py_str_or, hs]

lemma get_post_content_ok_shape (env : FetchEnv) (sc : String) (ec : Int)
    (pk : Nat) (mi : MediaInfo) (r : FetchOutcome)
    (h1 : env.media_pk_from_code sc = .ok pk)
    (h2 : env.media_info pk = .ok mi)
    (hr : (get_post_content env sc ec).2 = .ok r) :
    r = { post := sc, owner := "undefined", type := "undefined",
          status := "source_not_found" }
    ∨ ∃ pt st, mi.product_type = some pt
        ∧ (st = "completed" ∨ st = "not_supported")
        ∧ r = { post := sc, owner := mi.username, type := type_field pt,
                status := st } := by
  by_cases hec : ec > 3
  · rw [get_post_content_guard env sc ec hec] at hr
    simp at hr
  · rw [get_post_content_eq env sc ec hec, get_post_try_eq env sc pk mi h1 h2] at hr
    rcases hdm : download_methods (dispatch_key mi) with _ | dm
    · rw [hdm] at hr
      dsimp only at hr
      rw [build_response_status env mi sc "not_supported" _ (by decide)] at hr
      rcases hpt : mi.product_type with _ | pt
      · rw [hpt] at hr
        dsimp only at hr
        simp at hr
      · rw [hpt] at hr
        dsimp only at hr
        injection hr with h
        exact Or.inr ⟨pt, "not_supported", rfl, Or.inr rfl, h.symm⟩
    · rw [hdm] at hr
      dsimp only at hr
      rcases hdl : env.download dm pk ("data/" ++ mi.username) with e | u
      · rw [hdl] at hr
        dsimp only at hr
        by_cases he : e = .mediaUnavailable ∨ e = .mediaNotFound
        · rw [if_pos he] at hr
          dsimp only at hr
          injection hr with h
          exact Or.inl h.symm
        · rw [if_neg he] at hr
          simp at hr
      · rw [hdl] at hr
        dsimp only at hr
        rw [build_response_status env mi sc "completed" _ (by decide)] at hr
        rcases hpt : mi.product_type with _ | pt
        · rw [hpt] at hr
          dsimp only at hr
          simp at hr
        · rw [hpt] at hr
          dsimp only at hr
          injection hr with h
          exact Or.inr ⟨pt, "completed", rfl, Or.inl rfl, h.symm⟩

/-- Claim C6: the dispatch key normalizes the subkind to any for media
types 1 and 8 and uses the metadata subkind verbatim otherwise; when the
five-entry table has no entry for the key, no download strategy is
invoked and any returned response has status not_supported (and when the
product_type key is present in the metadata, such a response is in fact
returned). -/
theorem C6_dispatch_lookup (env : FetchEnv) (sc : String) (ec : Int)
    (pk : Nat) (mi : MediaInfo)
    (h1 : env.media_pk_from_code sc = .ok pk)
    (h2 : env.media_info pk = .ok mi) :
    ((mi.media_type = 1 ∨ mi.media_type = 8) →
      (dispatch_key mi).2 = some "any")
    ∧ (¬(mi.media_type = 1 ∨ mi.media_type = 8) →
      (dispatch_key mi).2 = dict_get_product_type mi)
    ∧ (download_methods (dispatch_key mi) = none →
        (∀ dm, FetchEvent.download dm ∉ (get_post_content env sc ec).1)
        ∧ (∀ r, (get_post_content env sc ec).2 = .ok r →
            r.status = "not_supported")
        ∧ (¬ ec > 3 → ∀ pt, mi.product_type = some pt →
            (get_post_content env sc ec).2 =
              .ok { post := sc, owner := mi.username,
                    type := type_field pt, status := "not_supported" })) := by
  refine ⟨fun h => by simp [dispatch_key, h], fun h => by simp [dispatch_key, h], ?_⟩
  intro hnone
  by_cases hec : ec > 3
  · rw [get_post_content_guard env sc ec hec]
    refine ⟨fun dm => by simp, fun r hr => by simp at hr, fun h3 => absurd hec h3⟩
  · have htry := get_post_try_eq env sc pk mi h1 h2
    rw [hnone] at htry
    dsimp only at htry
    rw [build_response_status env mi sc "not_supported" _ (by decide)] at htry
    rcases hpt : mi.product_type with _ | pt
    · rw [hpt] at htry
      dsimp only at htry
      refine ⟨?_, ?_, ?_⟩
      · intro dm
        rw [get_post_content_eq env sc ec hec, htry]
        simp
      · intro r hr
        rw [get_post_content_eq env sc ec hec, htry] at hr
        simp at hr
      · intro h3 pt hpt2
        cases hpt2
    · rw [hpt] at htry
      dsimp only at htry
      refine ⟨?_, ?_, ?_⟩
      · intro dm
        rw [get_post_content_eq env sc ec hec, htry]
        simp
      · intro r hr
        rw [get_post_content_eq env sc ec hec, htry] at hr
        dsimp only at hr
        injection hr with h
        rw [← h]
      · intro h3 pt2 hpt2
        cases hpt2
        rw [get_post_content_eq env sc ec hec, htry]

/-- Witness for C6: a media type 2 descriptor with an unsupported
subkind story is not dispatched and yields status not_supported. -/
theorem C6_witness :
    (envOf (.ok 12) (.ok { media_type := 2, product_type := some (some "story"),
                           username := "dave" }) (.ok ()) []).media_info 12 =
      .ok { media_type := 2, product_type := some (some "story"),
            username := "dave" } ∧
    (get_post_content
        (envOf (.ok 12) (.ok { media_type := 2, product_type := some (some "story"),
                               username := "dave" }) (.ok ()) []) "SC6" 0).2 =
      .ok { post := "SC6", owner := "dave", type := "story",
            status := "not_supported" } :=
  ⟨rfl,
   (C6_dispatch_lookup
      (envOf (.ok 12) (.ok { media_type := 2, product_type := some (some "story"),
                             username := "dave" }) (.ok ()) []) "SC6" 0 12
      { media_type := 2, product_type := some (some "story"), username := "dave" }
      rfl rfl).2.2 rfl |>.2.2 (by norm_num) (some "story") rfl⟩

/-- Claim C9 as amended: on the non-short-circuit path the type field of
the response equals the product_type value when it is present and
non-empty, and defaults to photo when it is present but None or the
empty string; when the product_type key is absent from the metadata
mapping, however, the subscript access raises KeyError, so no
non-short-circuit response is returned at all. -/
theorem C9_type_label (env : FetchEnv) (sc : String) (ec : Int) (pk : Nat)
    (mi : MediaInfo)
    (h1 : env.media_pk_from_code sc = .ok pk)
    (h2 : env.media_info pk = .ok mi) :
    (∀ s r, mi.product_type = some (some s) → s ≠ "" →
        (get_post_content env sc ec).2 = .ok r →
        r.status ≠ "source_not_found" → r.type = s)
    ∧ (∀ r, (mi.product_type = some none ∨ mi.product_type = some (some "")) →
        (get_post_content env sc ec).2 = .ok r →
        r.status ≠ "source_not_found" → r.type = "photo")
    ∧ (mi.product_type = none →
        ∀ r, (get_post_content env sc ec).2 = .ok r →
          r.status = "source_not_found") := by
  refine ⟨?_, ?_, ?_⟩
  · intro s r hpt hs hr hstat
    rcases get_post_content_ok_shape env sc ec pk mi r h1 h2 hr with h | ⟨pt, st, hpt2, hst, h⟩
    · rw [h] at hstat
      simp at hstat
    · rw [hpt] at hpt2
      injection hpt2 with h2'
      rw [h, ← h2']
      simp [type_field, hs]
  · intro r hpt hr hstat
    rcases get_post_content_ok_shape env sc ec pk mi r h1 h2 hr with h | ⟨pt, st, hpt2, hst, h⟩
    · rw [h] at hstat
      simp at hstat
    · rcases hpt with hpt | hpt <;> rw [hpt] at hpt2 <;> injection hpt2 with h2' <;>
        rw [h, ← h2'] <;> simp [type_field]
  · intro hpt r hr
    rcases get_post_content_ok_shape env sc ec pk mi r h1 h2 hr with h | ⟨pt, st, hpt2, hst, h⟩
    · rw [h]
    · rw [hpt] at hpt2
      cases hpt2

/-- Counterexample to claim C9 as stated: a metadata mapping without the
product_type key. The descriptor resolves to a single image, the photo
strategy runs, the directory is non-empty, yet get_post_content raises
KeyError instead of returning a response with type photo. -/
theorem C9_counterexample :
    (get_post_content
        (envOf (.ok 10) (.ok { media_type := 1, product_type := none,
                               username := "bob" }) (.ok ()) ["f.jpg"]) "SC9" 0).2 =
      .error (.keyError "product_type") := by
  rfl

/-- Witness for the amended C9: a present non-empty product_type igtv is
reported verbatim as the type of the response. -/
theorem C9_witness :
    (get_post_content
        (envOf (.ok 11) (.ok { media_type := 2, product_type := some (some "igtv"),
                               username := "carol" }) (.ok ()) ["v.mp4"]) "SCW" 0).2 =
      .ok { post := "SCW", owner := "carol", type := "igtv",
            status := "completed" } ∧
    ({ post := "SCW", owner := "carol", type := "igtv",
       status := "completed" } : FetchOutcome).type = "igtv" :=
  ⟨rfl,
   (C9_type_label
      (envOf (.ok 11) (.ok { media_type := 2, product_type := some (some "igtv"),
                             username := "carol" }) (.ok ()) ["v.mp4"]) "SCW" 0 11
      { media_type := 2, product_type := some (some "igtv"), username := "carol" }
      rfl rfl).1 "igtv"
      { post := "SCW", owner := "carol", type := "igtv", status := "completed" }
      rfl (by decide) rfl (by decide)⟩

/-- Claim C2: the wrapper invokes the operation once; on a classified
failure it performs the recovery and invokes the operation exactly one
more time with the original arguments, and a failure of that second
invocation propagates unwrapped; on an unclassified failure the
exception propagates with no second invocation; there is never a third
invocation; and the classified failures are exactly LoginRequired,
ChallengeRequired, PleaseWaitFewMinutes, ReadTimeoutError,
RequestsConnectionError and ClientRequestTimeout. -/
theorem C2_single_retry {α : Type} (m : Nat → Except Exc α) :
    (1 ≤ invocationCount (exceptions_handler m).1
      ∧ invocationCount (exceptions_handler m).1 ≤ 2)
    ∧ (∀ a, m 0 = .ok a → exceptions_handler m = ([.invoke], .ok a))
    ∧ (∀ e, m 0 = .error e → classified e = true →
        invocationCount (exceptions_handler m).1 = 2
        ∧ (exceptions_handler m).2 = m 1
        ∧ (∀ e2, m 1 = .error e2 → (exceptions_handler m).2 = .error e2))
    ∧ (∀ e, m 0 = .error e → classified e = false →
        exceptions_handler m = ([.invoke], .error e))
    ∧ (∀ e, classified e = true ↔
        (e = .loginRequired ∨ e = .challengeRequired
         ∨ e = .pleaseWaitFewMinutes ∨ e = .readTimeoutError
         ∨ e = .requestsConnectionError ∨ e = .clientRequestTimeout)) := by
  refine ⟨?_, ?_, ?_, ?_, ?_⟩
  · rcases h0 : m 0 with e | a
    · rcases hrs : recovery_steps e with _ | steps
      · simp [exceptions_handler, h0, hrs, invocationCount]
      · have h2 := count_invoke_retry steps
        simp only [exceptions_handler, h0, hrs]
        omega
    · simp [exceptions_handler, h0, invocationCount]
  · intro a h0
    simp [exceptions_handler, h0]
  · intro e h0 hcl
    refine ⟨(classified_retry m e h0 hcl).1, (classified_retry m e h0 hcl).2, ?_⟩
    intro e2 h1
    rw [(classified_retry m e h0 hcl).2, h1]
  · intro e h0 hcl
    rcases hrs : recovery_steps e with _ | steps
    · simp [exceptions_handler, h0, hrs]
    · rw [classified, hrs] at hcl
      simp at hcl
  · intro e
    cases e <;> simp [classified, recovery_steps]

/-- Witness for C2: a first invocation failing with LoginRequired is
followed by exactly one retry whose value is returned. -/
theorem C2_witness :
    ((fun n => if n = 0 then (.error Exc.loginRequired : Except Exc Nat)
               else .ok 42) 0 = .error Exc.loginRequired) ∧
    invocationCount
      (exceptions_handler (fun n =>
        if n = 0 then (.error Exc.loginRequired : Except Exc Nat)
        else .ok 42)).1 = 2 ∧
    (exceptions_handler (fun n =>
        if n = 0 then (.error Exc.loginRequired : Except Exc Nat)
        else .ok 42)).2 =
      (fun n => if n = 0 then (.error Exc.loginRequired : Except Exc Nat)
                else .ok 42) 1 :=
  ⟨rfl,
   ((C2_single_retry _).2.2.1 Exc.loginRequired rfl rfl).1,
   ((C2_single_retry _).2.2.1 Exc.loginRequired rfl rfl).2.1⟩

/-- Claim C3: the recovery chosen by the wrapper matches the
classification table: LoginRequired relogs in renew mode with no wait;
ChallengeRequired waits one hour then logs in with the default session
(resume) mode; PleaseWaitFewMinutes waits one hour then relogs in renew
mode; the three transport timeouts wait one minute with no login call;
and in every classified case the operation is retried exactly once. -/
theorem C3_recovery_table {α : Type} (m : Nat → Except Exc α) (e : Exc)
    (h : m 0 = .error e) :
    (e = .loginRequired →
      (exceptions_handler m).1 =
        [.invoke, .step (.loginCall "relogin"), .invoke])
    ∧ (e = .challengeRequired →
      (exceptions_handler m).1 =
        [.invoke, .step (.sleepSeconds 3600), .step (.loginCall "session"),
         .invoke])
    ∧ (e = .pleaseWaitFewMinutes →
      (exceptions_handler m).1 =
        [.invoke, .step (.sleepSeconds 3600), .step (.loginCall "relogin"),
         .invoke])
    ∧ (e = .readTimeoutError ∨ e = .requestsConnectionError
        ∨ e = .clientRequestTimeout →
      (exceptions_handler m).1 = [.invoke, .step (.sleepSeconds 60), .invoke])
    ∧ (classified e = true →
        invocationCount (exceptions_handler m).1 = 2
        ∧ (exceptions_handler m).2 = m 1) := by
  refine ⟨?_, ?_, ?_, ?_, ?_⟩
  · intro he
    subst he
    simp [exceptions_handler, h, recovery_steps]
  · intro he
    subst he
    simp [exceptions_handler, h, recovery_steps]
  · intro he
    subst he
    simp [exceptions_handler, h, recovery_steps]
  · intro he
    rcases he with he | he | he <;> subst he <;>
      simp [exceptions_handler, h, recovery_steps]
  · intro hcl
    exact classified_retry m e h hcl

/-- Witness for C3: a ChallengeRequired failure produces the one hour
wait followed by a session mode login call and one retry. -/
theorem C3_witness :
    ((fun _ => (.error Exc.challengeRequired : Except Exc Nat)) 0 =
      .error Exc.challengeRequired) ∧
    (exceptions_handler
        (fun _ => (.error Exc.challengeRequired : Except Exc Nat))).1 =
      [.invoke, .step (.sleepSeconds 3600), .step (.loginCall "session"),
       .invoke] :=
  ⟨rfl, (C3_recovery_table (fun _ => (.error Exc.challengeRequired : Except Exc Nat))
          Exc.challengeRequired rfl).2.1 rfl⟩

/-- A login environment whose credential login fails with a classified
timeout on the first attempt. -/
def envTimeoutFail : LoginEnv :=
  { totp_generate_code := fun _ => "000000"
    clientLogin := fun _ _ => .error .clientRequestTimeout
    get_timeline_feed := .ok () }

/-- A login environment whose credential login succeeds. -/
def envLoginOk : LoginEnv :=
  { totp_generate_code := fun _ => "000000"
    clientLogin := fun _ _ => .ok "auth2"
    get_timeline_feed := .ok () }

/-- A configuration without two-factor authentication. -/
def cfgPlain : Configuration :=
  { username := "u", password := "p", twofa_enabled := false,
    twofa_seed := "" }

/-- A client state with a device identity, old authorization data and no
session file on disk. -/
def stNoFile : IgState :=
  { settings := { uuids := "dev", auth := "a0" }, sessionFile := none }

/-- Counterexample to claim C8 as stated: login is itself wrapped by
exceptions_handler, so when the body of login raises the classified
ClientRequestTimeout on its first run, the exception does not propagate
to the caller; the wrapper sleeps one minute and runs the body of login
a second time inside the same login call, and the call returns the
second run's value. -/
theorem C8_counterexample :
    login_body cfgPlain envTimeoutFail stNoFile "session" =
      .error .clientRequestTimeout ∧
    login_wrapped cfgPlain envTimeoutFail envLoginOk stNoFile stNoFile
        "session" =
      ([.invoke, .step (.sleepSeconds 60), .invoke],
       .ok ({ settings := { uuids := "dev", auth := "auth2" },
              sessionFile := some { uuids := "dev", auth := "auth2" } },
            "logged_in")) ∧
    invocationCount
      (login_wrapped cfgPlain envTimeoutFail envLoginOk stNoFile stNoFile
        "session").1 = 2 := by
  refine ⟨rfl, rfl, rfl⟩

/-- Claim C8 as amended: an exception raised during a login call
propagates unchanged exactly when it is unclassified or raised by the
second run; a classified failure of login's body triggers the matching
recovery and exactly one further run of login's body inside the same
login call, and the call's result is then that of the second run. -/
theorem C8_login_propagation (cfg : Configuration) (env1 env2 : LoginEnv)
    (st1 st2 : IgState) (method : String) :
    (∀ e, login_body cfg env1 st1 method = .error e → classified e = false →
        login_wrapped cfg env1 env2 st1 st2 method = ([.invoke], .error e))
    ∧ (∀ e, login_body cfg env1 st1 method = .error e → classified e = true →
        invocationCount (login_wrapped cfg env1 env2 st1 st2 method).1 = 2
        ∧ (login_wrapped cfg env1 env2 st1 st2 method).2 =
            login_body cfg env2 st2 method) := by
  constructor
  · intro e h0 hcl
    rcases hrs : recovery_steps e with _ | steps
    · simp [login_wrapped, exceptions_handler, h0, hrs]
    · rw [classified, hrs] at hcl
      simp at hcl
  · intro e h0 hcl
    have h := classified_retry
      (fun n => if n = 0 then login_body cfg env1 st1 method
                else login_body cfg env2 st2 method) e (by simpa using h0) hcl
    exact ⟨h.1, h.2⟩

/-- Witness for the amended C8: an unclassified failure of login's body
propagates unchanged with a single run. -/
theorem C8_witness :
    login_body cfgPlain
        { totp_generate_code := fun _ => "000000"
          clientLogin := fun _ _ => .error (.otherError "boom")
          get_timeline_feed := .ok () } stNoFile "session" =
      .error (.otherError "boom") ∧
    login_wrapped cfgPlain
        { totp_generate_code := fun _ => "000000"
          clientLogin := fun _ _ => .error (.otherError "boom")
          get_timeline_feed := .ok () }
        envLoginOk stNoFile stNoFile "session" =
      ([.invoke], .error (.otherError "boom")) :=
  ⟨rfl,
   (C8_login_propagation cfgPlain
      { totp_generate_code := fun _ => "000000"
        clientLogin := fun _ _ => .error (.otherError "boom")
        get_timeline_feed := .ok () }
      envLoginOk stNoFile stNoFile "session").1 (.otherError "boom") rfl rfl⟩

/-- Claim C10: whenever the body of login returns without raising, the
value is the string logged_in, and the same holds for the wrapped login;
hence every error produced by the constructor's auth-status check is an
exception propagated out of login itself, so the FailedAuthInstagram
else branch never fires on a normal return. -/
theorem C10_login_value (cfg : Configuration) (env1 env2 : LoginEnv)
    (st1 st2 : IgState) (method : String) :
    (∀ st3 s, login_body cfg env1 st1 method = .ok (st3, s) →
        s = "logged_in")
    ∧ (∀ st3 s, (login_wrapped cfg env1 env2 st1 st2 method).2 = .ok (st3, s) →
        s = "logged_in")
    ∧ (∀ st3 s, (login_wrapped cfg env1 env2 st1 st2 method).2 = .ok (st3, s) →
        init_auth_check (.ok s) = .ok ())
    ∧ (∀ e, init_auth_check
          ((login_wrapped cfg env1 env2 st1 st2 method).2.map Prod.snd) =
            .error e →
        (login_wrapped cfg env1 env2 st1 st2 method).2.map Prod.snd =
          .error e) := by
  have hbody : ∀ (env : LoginEnv) (st : IgState) (st3 : IgState) (s : String),
      login_body cfg env st method = .ok (st3, s) → s = "logged_in" := by
    intro env st st3 s h
    unfold login_body at h
    rcases hb : login_branch env st method (make_login_args cfg env) with e | stB
    · rw [hb] at h
      cases h
    · rw [hb] at h
      dsimp only at h
      rcases ht : env.get_timeline_feed with e | u
      · rw [ht] at h
        cases h
      · rw [ht] at h
        dsimp only at h
        simp only [Except.ok.injEq, Prod.mk.injEq] at h
        exact h.2.symm
  have hwrapped : ∀ st3 s,
      (login_wrapped cfg env1 env2 st1 st2 method).2 = .ok (st3, s) →
      s = "logged_in" := by
    intro st3 s h
    unfold login_wrapped at h
    rcases exceptions_handler_ok _ _ h with h2 | h2
    · exact hbody env1 st1 st3 s h2
    · exact hbody env2 st2 st3 s h2
  refine ⟨fun st3 s h => hbody env1 st1 st3 s h, hwrapped, ?_, ?_⟩
  · intro st3 s h
    rw [hwrapped st3 s h]
    rfl
  · intro e h
    rcases hw : (login_wrapped cfg env1 env2 st1 st2 method).2 with e2 | p
    · rw [hw] at h
      dsimp only [Except.map] at h ⊢
      dsimp only [init_auth_check] at h
      injection h with h2
      exact congrArg Except.error h2
    · rw [hw] at h
      have hs := hwrapped p.1 p.2 (by rw [hw])
      dsimp only [Except.map] at h
      rw [hs] at h
      simp [init_auth_check] at h

/-- Witness for C10: a successful session login returns logged_in and
passes the constructor check. -/
theorem C10_witness :
    login_body cfgPlain envLoginOk stNoFile "session" =
      .ok ({ settings := { uuids := "dev", auth := "auth2" },
             sessionFile := some { uuids := "dev", auth := "auth2" } },
           "logged_in") ∧
    ("logged_in" : String) = "logged_in" :=
  ⟨rfl,
   (C10_login_value cfgPlain envLoginOk envLoginOk stNoFile stNoFile
      "session").1
     { settings := { uuids := "dev", auth := "auth2" },
       sessionFile := some { uuids := "dev", auth := "auth2" } }
     "logged_in" rfl⟩

/-- Claim C7: a login call in renew (relogin) mode reads the current
settings, resets them, carries forward exactly the device uuids, runs
the credential login on that reset state, and persists the resulting
settings to the session file, fully replacing it; when the fresh
authorization data differs from the old one the persisted session
differs from the session that existed immediately before the call. -/
theorem C7_relogin (cfg : Configuration) (env : LoginEnv) (st : IgState)
    (a : String)
    (hl : env.clientLogin (make_login_args cfg env)
            { uuids := st.settings.uuids, auth := "" } = .ok a)
    (ht : env.get_timeline_feed = .ok ()) :
    login_body cfg env st "relogin" =
      .ok ({ settings := { uuids := st.settings.uuids, auth := a },
             sessionFile := some { uuids := st.settings.uuids, auth := a } },
           "logged_in")
    ∧ ({ uuids := st.settings.uuids, auth := a } : Session).uuids =
        st.settings.uuids
    ∧ (a ≠ st.settings.auth →
        some ({ uuids := st.settings.uuids, auth := a } : Session) ≠
          some st.settings) := by
  refine ⟨?_, rfl, ?_⟩
  · unfold login_body login_branch login_branch_rest
    rcases hf : st.sessionFile with _ | fs
    · dsimp only
      rw [if_pos rfl, hl]
      dsimp only
      rw [ht]
    · dsimp only
      rw [if_neg (by decide), if_pos rfl, hl]
      dsimp only
      rw [ht]
  · intro hne h
    injection h with h2
    apply hne
    have := congrArg Session.auth h2
    simpa using this

/-- Witness for C7 at a concrete state and environment. -/
theorem C7_witness :
    envLoginOk.clientLogin (make_login_args cfgPlain envLoginOk)
        { uuids := "dev", auth := "" } = .ok "auth2" ∧
    login_body cfgPlain envLoginOk stNoFile "relogin" =
      .ok ({ settings := { uuids := "dev", auth := "auth2" },
             sessionFile := some { uuids := "dev", auth := "auth2" } },
           "logged_in") ∧
    ("auth2" : String) ≠ "a0" ∧
    some ({ uuids := "dev", auth := "auth2" } : Session) ≠
      some ({ uuids := "dev", auth := "a0" } : Session) :=
  ⟨rfl,
   (C7_relogin cfgPlain envLoginOk stNoFile "auth2" rfl rfl).1,
   by decide,
   (C7_relogin cfgPlain envLoginOk stNoFile "auth2" rfl rfl).2.2 (by decide)⟩

end Downloader
